import Mathlib

/-!
Shallow embedding of the wanpc configuration tool.

The source under verification is `src/wanpc/config.py` (the layered-defaults
resolution engine `Config.get_merged_defaults`) and `src/wanpc/cli.py` (the
`create` command's variable-collection pipeline and the `config` command's
confirmation-gated remove actions).

Python dictionaries are modelled as association lists over string keys,
with lookup returning the first binding, insertion replacing the first
binding in place (as `d[k] = v` does for an existing key, preserving
iteration order) and appending otherwise.  JSON / TOML values are modelled
by the inductive type `Val` (strings, lists, nested mappings), which covers
every value the claims touch.
-/

namespace Wanpc

/-- Values stored in the configuration document and in a template's
`cookiecutter.json` variable schema: strings, lists (choice sequences) and
nested mappings. -/
inductive Val where
  | str : String → Val
  | list : List Val → Val
  | dict : List (String × Val) → Val

/-- A Python `dict` with string keys, as an association list in insertion
order. -/
abbrev Dict := List (String × Val)

/-- Dictionary lookup: the first binding of the key, `none` when absent. -/
def dlookup : Dict → String → Option Val
  | [], _ => none
  | (k, v) :: rest, key => if k = key then some v else dlookup rest key

/-- Python membership test `key in d`. -/
def dcontains (d : Dict) (k : String) : Bool :=
  (dlookup d k).isSome

/-- Python `d.get(key, dflt)`. -/
def dget (d : Dict) (k : String) (dflt : Val) : Val :=
  (dlookup d k).getD dflt

/-- Python `d[key] = value`: replace the first binding in place, or append
the new binding at the end. -/
def dinsert : Dict → String → Val → Dict
  | [], key, v => [(key, v)]
  | (k, w) :: rest, key, v =>
    if k = key then (key, v) :: rest else (k, w) :: dinsert rest key v

/-- Python `d.update(other)`: insert every binding of `other` in order. -/
def dupdate : Dict → Dict → Dict
  | d, [] => d
  | d, (k, v) :: rest => dupdate (dinsert d k v) rest

/-- Python `del d[key]`: drop the first binding of the key. -/
def dremove : Dict → String → Dict
  | [], _ => []
  | (k, v) :: rest, key => if k = key then rest else (k, v) :: dremove rest key

/-- Does the character list `p` occur at the start of `s`? -/
def charsStarts : List Char → List Char → Bool
  | _, [] => true
  | [], _ :: _ => false
  | a :: as, b :: bs => a = b && charsStarts as bs

/-- Does the character list `p` occur anywhere in `s`?  Used for Python's
substring test `p in s`. -/
def charsHasInfix : List Char → List Char → Bool
  | [], p => p.isEmpty
  | c :: rest, p => charsStarts (c :: rest) p || charsHasInfix rest p

/-- Python `s.startswith(p)`. -/
def strStarts (s p : String) : Bool :=
  charsStarts s.data p.data

/-- Python slicing `s[n:]`. -/
def pyDrop (s : String) (n : Nat) : String :=
  String.mk (s.data.drop n)

/-- Python `s.find("\x7b\x7b") != -1`: does the string contain the Jinja2
expression opener? -/
def strHasJinja (s : String) : Bool :=
  charsHasInfix s.data ['\x7b', '\x7b']

/-- Python `list.index(x)` restricted to the found case: index of the first
occurrence, or the length when absent (the CLI only calls it on elements of
the list). -/
def firstIdx : List String → String → Nat
  | [], _ => 0
  | a :: rest, x => if a = x then 0 else firstIdx rest x + 1

/-- Python truthiness of a value: empty strings, lists and mappings are
falsy. -/
def Val.truthy : Val → Bool
  | .str s => !s.data.isEmpty
  | .list l => !l.isEmpty
  | .dict d => !d.isEmpty

/-- Python membership `key in v` for the configuration's `templates`
section.  The data model fixes that section to a mapping; non-mapping
containers are out of the modelled domain and report `false`. -/
def Val.containsKey : Val → String → Bool
  | .dict d, k => dcontains d k
  | _, _ => false

mutual

/-- Python `str(v)` as used for prompt choices and defaults.  A scalar
string renders as itself, which is the only case the claims depend on;
compound values render structurally. -/
def pyStr : Val → String
  | .str s => s
  | .list l => "[" ++ pyStrJoinL l ++ "]"
  | .dict d => "\x7b" ++ pyStrJoinD d ++ "\x7d"

def pyStrJoinL : List Val → String
  | [] => ""
  | [v] => pyStr v
  | v :: r => pyStr v ++ ", " ++ pyStrJoinL r

def pyStrJoinD : List (String × Val) → String
  | [] => ""
  | [(k, v)] => k ++ ": " ++ pyStr v
  | (k, v) :: r => k ++ ": " ++ pyStr v ++ ", " ++ pyStrJoinD r

end

/-- Exceptions the modelled code can raise. -/
inductive PyError where
  | keyError : String → PyError
  | indexError : PyError

/-- The `global_defaults` section as the resolution engine reads it
(src/wanpc/config.py lines 102-106): `config_data.get("global_defaults", \x7b\x7d)`,
degraded to the empty mapping when the value is not a mapping. -/
def effGlobalDefaults (config_data : Dict) : Dict :=
  match dget config_data "global_defaults" (.dict []) with
  | .dict d => d
  | _ => []

/-- The target template's `defaults` section as the resolution engine reads
it (src/wanpc/config.py lines 108-111):
`config_data["templates"][template_name].get("defaults", \x7b\x7d)`, degraded
to the empty mapping when the value is not a mapping.  The indexing happens
under the registration guard, so the entry is present; a non-mapping entry
is outside the data model and reads as empty. -/
def effTemplateDefaults (config_data : Dict) (template_name : String) : Dict :=
  let entry : Val :=
    match dget config_data "templates" (.dict []) with
    | .dict ts => dget ts template_name (.dict [])
    | v => v
  match entry with
  | .dict e =>
    match dget e "defaults" (.dict []) with
    | .dict d => d
    | _ => []
  | _ => []

/-- Embedding of `Config.get_merged_defaults` (src/wanpc/config.py lines
84-114): raise `KeyError` when the template is not registered, otherwise
start from a copy of the global defaults and overwrite with the template's
own defaults. -/
def Config.get_merged_defaults (config_data : Dict) (template_name : String) :
    Except PyError Dict :=
  if !(Val.containsKey (dget config_data "templates" (.dict [])) template_name) then
    .error (.keyError ("Template " ++ template_name ++ " not found in config"))
  else
    let merged := effGlobalDefaults config_data
    let template_defaults := effTemplateDefaults config_data template_name
    .ok (dupdate merged template_defaults)

/-- The override parser of the `create` command (src/wanpc/cli.py lines
461-468), iterating over the trailing arguments while indexing into the
full argument list with `ctx.args.index(item)` (first occurrence). -/
def parseOverridesAux (cookiecutter_config : Dict) (args : List String) :
    List String → Dict → Dict
  | [], extra_context => extra_context
  | item :: rest, extra_context =>
    let extra_context :=
      if strStarts item "--" then
        let key := pyDrop item 2
        let i := firstIdx args item
        if dcontains cookiecutter_config key && decide (args.length > i + 1) then
          let value := args.getD (i + 1) ""
          if !strStarts value "--" then
            dinsert extra_context key (.str value)
          else extra_context
        else extra_context
      else extra_context
    parseOverridesAux cookiecutter_config args rest extra_context

/-- Parse the trailing `--key value` overrides of `create` into the initial
`extra_context` (src/wanpc/cli.py lines 461-468). -/
def parseOverrides (cookiecutter_config : Dict) (args : List String) : Dict :=
  parseOverridesAux cookiecutter_config args args []

/-- The defaults phase of `create` (src/wanpc/cli.py lines 476-479): add
each merged default whose key was not supplied on the command line. -/
def addDefaults : Dict → Dict → Dict
  | extra_context, [] => extra_context
  | extra_context, (k, v) :: rest =>
    addDefaults
      (if dcontains extra_context k then extra_context else dinsert extra_context k v)
      rest

/-- The prompting phase of `create` (src/wanpc/cli.py lines 493-518),
iterating over the schema's items.  `fill` gives the value the user finally
supplies at a prompt (`none` means the empty answer, which Rich's
`Prompt.ask` turns into the offered default).  For a choice list the
accepted answer is constrained to the choices, falling back to the first
choice (`choices[0]` raises `IndexError` on an empty list); for a scalar
the offered default is `str(value)` when the value is truthy, else the
empty string.  Alongside the context, the list of keys actually prompted
for is returned. -/
def promptPhase (fill : String → Option String) :
    List (String × Val) → Dict → List String → Except PyError (Dict × List String)
  | [], extra_context, prompted => .ok (extra_context, prompted)
  | (key, default_value) :: rest, extra_context, prompted =>
    if !dcontains extra_context key && !strStarts key "_" then
      if (match default_value with | .str s => strHasJinja s | _ => false) then
        promptPhase fill rest extra_context prompted
      else
        match default_value with
        | .list l =>
          match l.map pyStr with
          | [] => .error .indexError
          | c0 :: cs =>
            let value :=
              match fill key with
              | some s => if s ∈ c0 :: cs then s else c0
              | none => c0
            promptPhase fill rest (dinsert extra_context key (.str value))
              (prompted ++ [key])
        | _ =>
          let value :=
            (fill key).getD
              (if default_value.truthy then pyStr default_value else "")
          promptPhase fill rest (dinsert extra_context key (.str value))
            (prompted ++ [key])
    else
      promptPhase fill rest extra_context prompted

/-- The context of `create` before prompting (src/wanpc/cli.py lines
460-489): the command-line overrides, extended — unless `--no-defaults` is
set — by the merged defaults for keys not already overridden.  A `KeyError`
from the resolution engine propagates (the command exits non-zero). -/
def preContext (cfg : Dict) (template : String) (cookiecutter_config : Dict)
    (args : List String) (no_defaults : Bool) : Except PyError Dict :=
  let extra_context := parseOverrides cookiecutter_config args
  if no_defaults then .ok extra_context
  else
    match Config.get_merged_defaults cfg template with
    | .error e => .error e
    | .ok merged_defaults => .ok (addDefaults extra_context merged_defaults)

/-- The variable-collection pipeline of `create` (src/wanpc/cli.py lines
460-518): overrides, then resolved defaults, then prompting over the
template schema.  Returns the final context handed to cookiecutter and the
keys prompted for. -/
def collectContext (cfg : Dict) (template : String) (cookiecutter_config : Dict)
    (args : List String) (no_defaults : Bool) (fill : String → Option String) :
    Except PyError (Dict × List String) :=
  match preContext cfg template cookiecutter_config args no_defaults with
  | .error e => .error e
  | .ok extra_context => promptPhase fill cookiecutter_config extra_context []

/-- Outcome of one `config` sub-command: the configuration document after
the call, whether it was persisted, and the process exit status. -/
structure CmdOutcome where
  cfg : Dict
  saved : Bool
  exitCode : Nat

/-- The `config remove-template` action (src/wanpc/cli.py lines 732-748):
unknown names raise `BadParameter` (exit 1 via the command boundary); a
declined confirmation returns without deleting or saving. -/
def configRemoveTemplate (cfg : Dict) (name : String) (confirmed : Bool) :
    CmdOutcome :=
  let templates :=
    match dget cfg "templates" (.dict []) with
    | .dict ts => ts
    | _ => []
  if !dcontains templates name then
    ⟨cfg, false, 1⟩
  else if !confirmed then
    ⟨cfg, false, 0⟩
  else
    ⟨dinsert cfg "templates" (.dict (dremove templates name)), true, 0⟩

/-- The `config remove-default` action (src/wanpc/cli.py lines 750-784):
validation failures raise `BadParameter`; only a confirmed request deletes
the key and saves. -/
def configRemoveDefault (cfg : Dict) (name key : String) (confirmed : Bool) :
    CmdOutcome :=
  let templates :=
    match dget cfg "templates" (.dict []) with
    | .dict ts => ts
    | _ => []
  if !dcontains templates name then
    ⟨cfg, false, 1⟩
  else
    let entry :=
      match dget templates name (.dict []) with
      | .dict e => e
      | _ => []
    let defaults :=
      match dget entry "defaults" (.dict []) with
      | .dict d => d
      | _ => []
    if !dcontains defaults key then
      ⟨cfg, false, 1⟩
    else if confirmed then
      let entry := dinsert entry "defaults" (.dict (dremove defaults key))
      let templates := dinsert templates name (.dict entry)
      ⟨dinsert cfg "templates" (.dict templates), true, 0⟩
    else
      ⟨cfg, false, 0⟩

/-- The `config remove-global-default` action (src/wanpc/cli.py lines
786-806): an unknown key raises `BadParameter`; only a confirmed request
deletes the key and saves. -/
def configRemoveGlobalDefault (cfg : Dict) (key : String) (confirmed : Bool) :
    CmdOutcome :=
  let global_defaults :=
    match dget cfg "global_defaults" (.dict []) with
    | .dict d => d
    | _ => []
  if !dcontains global_defaults key then
    ⟨cfg, false, 1⟩
  else if confirmed then
    ⟨dinsert cfg "global_defaults" (.dict (dremove global_defaults key)), true, 0⟩
  else
    ⟨cfg, false, 0⟩

/-! ### Dictionary lemmas -/

theorem dlookup_dinsert_self (d : Dict) (k : String) (v : Val) :
    dlookup (dinsert d k v) k = some v := by
  induction d with
  | nil => simp [dinsert, dlookup]
  | cons hd tl ih =>
    obtain ⟨k', v'⟩ := hd
    by_cases h : k' = k
    · simp [dinsert, dlookup, h]
    · simp [dinsert, dlookup, h, ih]

theorem dlookup_dinsert_ne (d : Dict) (k : String) (v : Val) (k' : String)
    (h : k' ≠ k) : dlookup (dinsert d k v) k' = dlookup d k' := by
  induction d with
  | nil => simp [dinsert, dlookup, Ne.symm h]
  | cons hd tl ih =>
    obtain ⟨k₀, v₀⟩ := hd
    by_cases h0 : k₀ = k
    · subst h0
      simp [dinsert, dlookup, Ne.symm h]
    · by_cases h1 : k₀ = k'
      · simp [dinsert, dlookup, h0, h1, h]
      · simp [dinsert, dlookup, h0, h1, ih]

theorem dcontains_dinsert (d : Dict) (k : String) (v : Val) (k' : String) :
    dcontains (dinsert d k v) k' = (decide (k' = k) || dcontains d k') := by
  by_cases h : k' = k
  · subst h; simp [dcontains, dlookup_dinsert_self]
  · simp [dcontains, dlookup_dinsert_ne d k v k' h, h]

theorem dlookup_eq_none_of_not_mem (d : Dict) (k : String)
    (h : k ∉ d.map Prod.fst) : dlookup d k = none := by
  induction d with
  | nil => rfl
  | cons hd tl ih =>
    obtain ⟨k', v'⟩ := hd
    simp only [List.map_cons, List.mem_cons] at h
    push_neg at h
    simp [dlookup, Ne.symm h.1, ih h.2]

theorem dinsert_of_not_contains (d : Dict) (k : String) (v : Val)
    (h : dcontains d k = false) : dinsert d k v = d ++ [(k, v)] := by
  induction d with
  | nil => rfl
  | cons hd tl ih =>
    obtain ⟨k', v'⟩ := hd
    simp only [dcontains, dlookup] at h
    by_cases h0 : k' = k
    · simp [h0] at h
    · simp only [dinsert, if_neg h0, List.cons_append]
      simp only [if_neg h0] at h
      rw [ih h]

theorem dupdate_lookup_none (m1 m2 : Dict) (k : String)
    (h : dlookup m2 k = none) : dlookup (dupdate m1 m2) k = dlookup m1 k := by
  induction m2 generalizing m1 with
  | nil => rfl
  | cons hd tl ih =>
    obtain ⟨k', v'⟩ := hd
    simp only [dlookup] at h
    by_cases h0 : k' = k
    · simp [h0] at h
    · simp only [if_neg h0] at h
      simp only [dupdate, ih _ h, dlookup_dinsert_ne _ _ _ _ (fun hh => h0 hh.symm)]

theorem dupdate_lookup_some (m1 m2 : Dict) (k : String) (v : Val)
    (hnd : (m2.map Prod.fst).Nodup) (h : dlookup m2 k = some v) :
    dlookup (dupdate m1 m2) k = some v := by
  induction m2 generalizing m1 with
  | nil => simp [dlookup] at h
  | cons hd tl ih =>
    obtain ⟨k', v'⟩ := hd
    simp only [List.map_cons, List.nodup_cons] at hnd
    simp only [dlookup] at h
    by_cases h0 : k' = k
    · subst h0
      rw [if_pos rfl] at h
      obtain rfl : v' = v := by injection h
      have htl : dlookup tl k' = none :=
        dlookup_eq_none_of_not_mem _ _ hnd.1
      rw [dupdate, dupdate_lookup_none _ _ _ htl, dlookup_dinsert_self]
    · rw [if_neg h0] at h
      rw [dupdate]
      exact ih _ hnd.2 h

theorem dcontains_dupdate (m1 m2 : Dict) (k : String)
    (hnd : (m2.map Prod.fst).Nodup) :
    dcontains (dupdate m1 m2) k = (dcontains m2 k || dcontains m1 k) := by
  cases h : dlookup m2 k with
  | none =>
    simp [dcontains, dupdate_lookup_none m1 m2 k h, h]
  | some v =>
    simp [dcontains, dupdate_lookup_some m1 m2 k v hnd h, h]

theorem dcontains_append (a b : Dict) (k : String) :
    dcontains (a ++ b) k = (dcontains a k || dcontains b k) := by
  induction a with
  | nil => simp [dcontains, dlookup]
  | cons hd tl ih =>
    obtain ⟨k', v'⟩ := hd
    by_cases h : k' = k
    · simp [dcontains, dlookup, h]
    · simpa [dcontains, dlookup, h] using ih

theorem dupdate_append (m1 m2 : Dict)
    (hd : ∀ k ∈ m2.map Prod.fst, dcontains m1 k = false)
    (hnd : (m2.map Prod.fst).Nodup) : dupdate m1 m2 = m1 ++ m2 := by
  induction m2 generalizing m1 with
  | nil => simp [dupdate]
  | cons hd0 tl ih =>
    obtain ⟨k, v⟩ := hd0
    simp only [List.map_cons, List.nodup_cons] at hnd
    have hk : dcontains m1 k = false := hd k (by simp)
    rw [dupdate, dinsert_of_not_contains _ _ _ hk, ih]
    · simp
    · intro k' hk'
      by_cases he : k' = k
      · exact absurd (he ▸ hk') hnd.1
      · rw [dcontains_append, hd k' (by simp [hk'])]
        simp [dcontains, dlookup, Ne.symm he]
    · exact hnd.2

theorem dupdate_nil_left (m : Dict) (hnd : (m.map Prod.fst).Nodup) :
    dupdate [] m = m := by
  simpa using dupdate_append [] m (by intro k _; rfl) hnd

/-! ### Lemmas about the defaults phase of `create` -/

theorem addDefaults_some (ec m : Dict) (k : String) (v : Val)
    (h : dlookup ec k = some v) : dlookup (addDefaults ec m) k = some v := by
  induction m generalizing ec with
  | nil => exact h
  | cons hd tl ih =>
    obtain ⟨k', v'⟩ := hd
    rw [addDefaults]
    refine ih _ ?_
    by_cases hc : dcontains ec k' = true
    · rw [if_pos hc]; exact h
    · rw [if_neg hc]
      have hne : k' ≠ k := by
        rintro rfl
        simp [dcontains, h] at hc
      rw [dlookup_dinsert_ne _ _ _ _ (Ne.symm hne)]
      exact h

theorem addDefaults_none (ec m : Dict) (k : String)
    (h : dlookup ec k = none) : dlookup (addDefaults ec m) k = dlookup m k := by
  induction m generalizing ec with
  | nil => exact h
  | cons hd tl ih =>
    obtain ⟨k', v'⟩ := hd
    rw [addDefaults]
    by_cases h0 : k' = k
    · subst h0
      have hc : ¬ dcontains ec k' = true := by simp [dcontains, h]
      rw [if_neg hc]
      rw [addDefaults_some _ _ _ _ (dlookup_dinsert_self ec k' v')]
      simp [dlookup]
    · have hn : dlookup (if dcontains ec k' then ec else dinsert ec k' v') k = none := by
        by_cases hc : dcontains ec k' = true
        · rw [if_pos hc]; exact h
        · rw [if_neg hc, dlookup_dinsert_ne _ _ _ _ (Ne.symm h0)]
          exact h
      rw [ih _ hn, dlookup, if_neg h0]

/-! ### Lemmas about the prompting phase of `create` -/

theorem promptPhase_cons (fill : String → Option String) (key : String) (dv : Val)
    (rest : List (String × Val)) (acc : Dict) (pr : List String) :
    promptPhase fill ((key, dv) :: rest) acc pr = .error .indexError ∨
    promptPhase fill ((key, dv) :: rest) acc pr = promptPhase fill rest acc pr ∨
    ((!dcontains acc key && !strStarts key "_") = true ∧ ∃ s,
      promptPhase fill ((key, dv) :: rest) acc pr
        = promptPhase fill rest (dinsert acc key (.str s)) (pr ++ [key])) := by
  by_cases hc : (!dcontains acc key && !strStarts key "_") = true
  · cases dv with
    | str s =>
      by_cases hj : strHasJinja s = true
      · right; left
        rw [promptPhase, if_pos hc, if_pos hj]
      · right; right
        refine ⟨hc, (fill key).getD (if (Val.str s).truthy then pyStr (Val.str s) else ""), ?_⟩
        rw [promptPhase, if_pos hc, if_neg hj]
    | list l =>
      cases hmap : l.map pyStr with
      | nil =>
        left
        rw [promptPhase, if_pos hc, if_neg (by simp)]
        simp only [hmap]
      | cons c0 cs =>
        right; right
        refine ⟨hc, (match fill key with
          | some s => if s ∈ c0 :: cs then s else c0
          | none => c0), ?_⟩
        rw [promptPhase, if_pos hc, if_neg (by simp)]
        simp only [hmap]
    | dict d =>
      right; right
      refine ⟨hc, (fill key).getD
        (if (Val.dict d).truthy then pyStr (Val.dict d) else ""), ?_⟩
      rw [promptPhase, if_pos hc, if_neg (by simp)] <;> simp
  · right; left
    cases dv <;> rw [promptPhase, if_neg hc] <;> simp

/-- The step taken for a choice list that is actually prompted: the accepted
answer is constrained to the rendered choices, the empty answer selecting
the first. -/
theorem promptPhase_cons_list (fill : String → Option String) (key : String)
    (l : List Val) (rest : List (String × Val)) (acc : Dict) (pr : List String)
    (hc : (!dcontains acc key && !strStarts key "_") = true)
    (c0 : String) (cs : List String) (hmap : l.map pyStr = c0 :: cs) :
    promptPhase fill ((key, .list l) :: rest) acc pr
      = promptPhase fill rest
          (dinsert acc key (.str (match fill key with
            | some s => if s ∈ c0 :: cs then s else c0
            | none => c0)))
          (pr ++ [key]) := by
  rw [promptPhase, if_pos hc, if_neg (by simp)]
  simp only [hmap]

theorem promptPhase_some (fill : String → Option String) (cc : List (String × Val))
    (k : String) (v : Val) :
    ∀ acc pr ctx prl, dlookup acc k = some v →
      promptPhase fill cc acc pr = .ok (ctx, prl) →
      dlookup ctx k = some v ∧ (k ∈ prl ↔ k ∈ pr) := by
  induction cc with
  | nil =>
    intro acc pr ctx prl hacc hrun
    rw [promptPhase] at hrun
    cases hrun
    exact ⟨hacc, Iff.rfl⟩
  | cons hd rest ih =>
    obtain ⟨key, dv⟩ := hd
    intro acc pr ctx prl hacc hrun
    rcases promptPhase_cons fill key dv rest acc pr with herr | hskip | ⟨hc, s, hins⟩
    · rw [herr] at hrun; cases hrun
    · rw [hskip] at hrun
      exact ih _ _ _ _ hacc hrun
    · rw [hins] at hrun
      have hkey : key ≠ k := by
        rintro rfl
        simp [dcontains, hacc] at hc
      have h1 : dlookup (dinsert acc key (Val.str s)) k = some v := by
        rw [dlookup_dinsert_ne _ _ _ _ (Ne.symm hkey)]; exact hacc
      have h2 := ih _ _ _ _ h1 hrun
      refine ⟨h2.1, ?_⟩
      rw [h2.2]
      simp [Ne.symm hkey]

theorem promptPhase_underscore (fill : String → Option String)
    (cc : List (String × Val)) (k : String) (hk : strStarts k "_" = true) :
    ∀ acc pr ctx prl, promptPhase fill cc acc pr = .ok (ctx, prl) →
      dlookup ctx k = dlookup acc k ∧ (k ∈ prl ↔ k ∈ pr) := by
  induction cc with
  | nil =>
    intro acc pr ctx prl hrun
    rw [promptPhase] at hrun
    cases hrun
    exact ⟨rfl, Iff.rfl⟩
  | cons hd rest ih =>
    obtain ⟨key, dv⟩ := hd
    intro acc pr ctx prl hrun
    rcases promptPhase_cons fill key dv rest acc pr with herr | hskip | ⟨hc, s, hins⟩
    · rw [herr] at hrun; cases hrun
    · rw [hskip] at hrun
      exact ih _ _ _ _ hrun
    · rw [hins] at hrun
      have hkey : key ≠ k := by
        rintro rfl
        simp [hk] at hc
      have h2 := ih _ _ _ _ hrun
      rw [dlookup_dinsert_ne _ _ _ _ (Ne.symm hkey)] at h2
      refine ⟨h2.1, ?_⟩
      rw [h2.2]
      simp [Ne.symm hkey]

theorem promptPhase_not_declared (fill : String → Option String)
    (cc : List (String × Val)) (k : String) (hk : dcontains cc k = false) :
    ∀ acc pr ctx prl, promptPhase fill cc acc pr = .ok (ctx, prl) →
      dlookup ctx k = dlookup acc k ∧ (k ∈ prl ↔ k ∈ pr) := by
  induction cc with
  | nil =>
    intro acc pr ctx prl hrun
    rw [promptPhase] at hrun
    cases hrun
    exact ⟨rfl, Iff.rfl⟩
  | cons hd rest ih =>
    obtain ⟨key, dv⟩ := hd
    have hkey : key ≠ k := by
      rintro rfl
      simp [dcontains, dlookup] at hk
    have hk2 : dcontains rest k = false := by
      simpa [dcontains, dlookup, hkey] using hk
    intro acc pr ctx prl hrun
    rcases promptPhase_cons fill key dv rest acc pr with herr | hskip | ⟨hc, s, hins⟩
    · rw [herr] at hrun; cases hrun
    · rw [hskip] at hrun
      exact ih hk2 _ _ _ _ hrun
    · rw [hins] at hrun
      have h2 := ih hk2 _ _ _ _ hrun
      rw [dlookup_dinsert_ne _ _ _ _ (Ne.symm hkey)] at h2
      refine ⟨h2.1, ?_⟩
      rw [h2.2]
      simp [Ne.symm hkey]

theorem promptPhase_choice (fill : String → Option String) :
    ∀ (cc : List (String × Val)) (k : String) (l : List Val) (acc : Dict)
      (pr : List String) (ctx : Dict) (prl : List String),
      (cc.map Prod.fst).Nodup →
      dlookup cc k = some (.list l) →
      dcontains acc k = false →
      strStarts k "_" = false →
      promptPhase fill cc acc pr = .ok (ctx, prl) →
      ∃ s, dlookup ctx k = some (.str s) ∧ s ∈ l.map pyStr ∧
        (fill k = none → (l.map pyStr).head? = some s) := by
  intro cc
  induction cc with
  | nil =>
    intro k l acc pr ctx prl _ hdecl
    simp [dlookup] at hdecl
  | cons hd rest ih =>
    obtain ⟨key, dv⟩ := hd
    intro k l acc pr ctx prl hnd hdecl hacc hus hrun
    simp only [List.map_cons, List.nodup_cons] at hnd
    by_cases hkey : key = k
    · subst hkey
      rw [dlookup, if_pos rfl] at hdecl
      have hdv : dv = Val.list l := by injection hdecl
      subst hdv
      have hcond : (!dcontains acc key && !strStarts key "_") = true := by
        simp [hacc, hus]
      cases hmap : l.map pyStr with
      | nil =>
        rw [promptPhase, if_pos hcond, if_neg (by simp)] at hrun
        simp only [hmap] at hrun
        cases hrun
      | cons c0 cs =>
        rw [promptPhase_cons_list fill key l rest acc pr hcond c0 cs hmap] at hrun
        refine ⟨(match fill key with
          | some s => if s ∈ c0 :: cs then s else c0
          | none => c0), ?_, ?_, ?_⟩
        · exact (promptPhase_some fill rest key _ _ _ _ _
            (dlookup_dinsert_self acc key _) hrun).1
        · cases hf : fill key with
          | none => simp
          | some s0 =>
            by_cases hmem : s0 ∈ c0 :: cs
            · simp [hmem]
            · simp [hmem]
        · intro hf
          rw [hf]
          simp
    · rw [dlookup, if_neg hkey] at hdecl
      rcases promptPhase_cons fill key dv rest acc pr with herr | hskip | ⟨hc, s, hins⟩
      · rw [herr] at hrun; cases hrun
      · rw [hskip] at hrun
        exact ih k l acc pr ctx prl hnd.2 hdecl hacc hus hrun
      · rw [hins] at hrun
        have hacc2 : dcontains (dinsert acc key (Val.str s)) k = false := by
          rw [dcontains_dinsert]
          simp [hacc, Ne.symm hkey]
        exact ih k l _ _ ctx prl hnd.2 hdecl hacc2 hus hrun

/-! ### Lemmas about the override parser of `create` -/

theorem firstIdx_lookup (args : List String) (x : String) (hx : x ∈ args) :
    args[firstIdx args x]? = some x := by
  induction args with
  | nil => cases hx
  | cons a tl ih =>
    by_cases h : a = x
    · subst h
      simp [firstIdx]
    · rcases List.mem_cons.mp hx with h1 | h1
      · exact absurd h1.symm h
      · simp [firstIdx, h, ih h1]

theorem getD_lookup (l : List String) (i : Nat) (d : String) (h : i < l.length) :
    l[i]? = some (l.getD i d) := by
  induction l generalizing i with
  | nil => simp at h
  | cons a tl ih =>
    cases i with
    | zero => simp [List.getD]
    | succ n =>
      simp only [List.length_cons, Nat.succ_lt_succ_iff] at h
      simpa [List.getD] using ih n h

theorem charsStarts_two (cs : List Char) (a b : Char)
    (h : charsStarts cs [a, b] = true) : cs = a :: b :: cs.drop 2 := by
  match cs with
  | [] => simp [charsStarts] at h
  | [c] => simp [charsStarts] at h
  | c1 :: c2 :: rest =>
    simp only [charsStarts, Bool.and_eq_true, decide_eq_true_eq] at h
    obtain ⟨h1, h2, -⟩ := h
    subst h1; subst h2
    rfl

/-- An item accepted as an override starts with `--` and equals `--` followed
by its parsed key. -/
theorem override_item_shape (item : String) (h : strStarts item "--" = true) :
    item = String.mk ('-' :: '-' :: (pyDrop item 2).data) := by
  have h2 : item.data = '-' :: '-' :: item.data.drop 2 :=
    charsStarts_two item.data '-' '-' h
  have h3 : (pyDrop item 2).data = item.data.drop 2 := rfl
  rw [h3, ← h2]

/-- What it means for the parsed overrides to bind `k` to `v`: the key is
declared in the schema and `--k v` occurs as an adjacent argument pair whose
value does not itself look like a flag. -/
def OverrideOrigin (cookiecutter_config : Dict) (args : List String)
    (k : String) (v : Val) : Prop :=
  dcontains cookiecutter_config k = true ∧
  ∃ s, v = Val.str s ∧ strStarts s "--" = false ∧
    ∃ i, args[i]? = some (String.mk ('-' :: '-' :: k.data)) ∧ args[i + 1]? = some s

theorem parseOverridesAux_sound (cookiecutter_config : Dict) (args : List String)
    (k : String) (v : Val) :
    ∀ items ec, (∀ it ∈ items, it ∈ args) →
      (dlookup ec k = some v → OverrideOrigin cookiecutter_config args k v) →
      dlookup (parseOverridesAux cookiecutter_config args items ec) k = some v →
      OverrideOrigin cookiecutter_config args k v := by
  intro items
  induction items with
  | nil =>
    intro ec _ hbase hfin
    exact hbase hfin
  | cons item tlitems ih =>
    intro ec hmem hbase hfin
    rw [parseOverridesAux] at hfin
    refine ih _ (fun it hit => hmem it (List.mem_cons_of_mem _ hit)) ?_ hfin
    intro hlk
    by_cases h1 : strStarts item "--" = true
    case neg =>
      rw [if_neg h1] at hlk
      exact hbase hlk
    case pos =>
      rw [if_pos h1] at hlk
      by_cases h2 : (dcontains cookiecutter_config (pyDrop item 2)
          && decide (args.length > firstIdx args item + 1)) = true
      case neg =>
        rw [if_neg h2] at hlk
        exact hbase hlk
      case pos =>
        rw [if_pos h2] at hlk
        by_cases h3 : (!strStarts (args.getD (firstIdx args item + 1) "") "--") = true
        case neg =>
          rw [if_neg h3] at hlk
          exact hbase hlk
        case pos =>
          rw [if_pos h3] at hlk
          by_cases hkk : pyDrop item 2 = k
          case neg =>
            rw [dlookup_dinsert_ne _ _ _ _ (Ne.symm hkk)] at hlk
            exact hbase hlk
          case pos =>
            subst hkk
            rw [dlookup_dinsert_self] at hlk
            have h2' : dcontains cookiecutter_config (pyDrop item 2) = true
                ∧ args.length > firstIdx args item + 1 := by simpa using h2
            obtain ⟨hdecl, hlen⟩ := h2'
            have hv : v = Val.str (args.getD (firstIdx args item + 1) "") := by
              injection hlk with h; exact h.symm
            refine ⟨hdecl, args.getD (firstIdx args item + 1) "", hv, ?_, firstIdx args item, ?_, ?_⟩
            · simpa using h3
            · rw [← override_item_shape item h1]
              exact firstIdx_lookup args item (hmem item (List.mem_cons_self _ _))
            · exact getD_lookup args _ "" hlen

theorem parseOverridesAux_undeclared (cookiecutter_config : Dict)
    (args : List String) (k : String)
    (hk : dcontains cookiecutter_config k = false) :
    ∀ items ec, dlookup ec k = none →
      dlookup (parseOverridesAux cookiecutter_config args items ec) k = none := by
  intro items
  induction items with
  | nil =>
    intro ec hec
    exact hec
  | cons item tlitems ih =>
    intro ec hec
    rw [parseOverridesAux]
    refine ih _ ?_
    by_cases h1 : strStarts item "--" = true
    case neg => rw [if_neg h1]; exact hec
    case pos =>
      rw [if_pos h1]
      by_cases h2 : (dcontains cookiecutter_config (pyDrop item 2)
          && decide (args.length > firstIdx args item + 1)) = true
      case neg => rw [if_neg h2]; exact hec
      case pos =>
        rw [if_pos h2]
        by_cases h3 : (!strStarts (args.getD (firstIdx args item + 1) "") "--") = true
        case neg => rw [if_neg h3]; exact hec
        case pos =>
          rw [if_pos h3]
          have hkk : pyDrop item 2 ≠ k := by
            rintro rfl
            simp [hk] at h2
          rw [dlookup_dinsert_ne _ _ _ _ (Ne.symm hkk)]
          exact hec

theorem parseOverrides_sound (cookiecutter_config : Dict) (args : List String)
    (k : String) (v : Val)
    (h : dlookup (parseOverrides cookiecutter_config args) k = some v) :
    OverrideOrigin cookiecutter_config args k v := by
  refine parseOverridesAux_sound cookiecutter_config args k v args [] (fun it h => h) ?_ h
  intro hlk
  cases hlk

theorem parseOverrides_undeclared (cookiecutter_config : Dict)
    (args : List String) (k : String)
    (hk : dcontains cookiecutter_config k = false) :
    dlookup (parseOverrides cookiecutter_config args) k = none :=
  parseOverridesAux_undeclared cookiecutter_config args k hk args [] rfl

/-! ### Lemmas about the resolution engine and the pipeline glue -/

/-- Is an optional configuration value present and a mapping? -/
def isDictOpt : Option Val → Bool
  | some (.dict _) => true
  | _ => false

theorem get_merged_defaults_ok (c : Dict) (t : String) (ts : List (String × Val))
    (hts : dlookup c "templates" = some (.dict ts)) (hmem : dcontains ts t = true) :
    Config.get_merged_defaults c t
      = .ok (dupdate (effGlobalDefaults c) (effTemplateDefaults c t)) := by
  rw [Config.get_merged_defaults,
    if_neg (by simp [dget, hts, Val.containsKey, hmem])]

theorem effGlobalDefaults_empty (c : Dict)
    (h : isDictOpt (dlookup c "global_defaults") = false) :
    effGlobalDefaults c = [] := by
  rw [effGlobalDefaults, dget]
  cases hg : dlookup c "global_defaults" with
  | none => rfl
  | some v =>
    rw [hg] at h
    cases v <;> simp_all [isDictOpt]

theorem effTemplateDefaults_entry (c : Dict) (t : String)
    (ts e : List (String × Val))
    (hts : dlookup c "templates" = some (.dict ts))
    (he : dlookup ts t = some (.dict e)) :
    effTemplateDefaults c t
      = match dget e "defaults" (.dict []) with
        | .dict d => d
        | _ => [] := by
  rw [effTemplateDefaults]
  simp only [dget, hts, he, Option.getD_some]

theorem effTemplateDefaults_empty (c : Dict) (t : String)
    (ts e : List (String × Val))
    (hts : dlookup c "templates" = some (.dict ts))
    (he : dlookup ts t = some (.dict e))
    (hd : isDictOpt (dlookup e "defaults") = false) :
    effTemplateDefaults c t = [] := by
  rw [effTemplateDefaults_entry c t ts e hts he, dget]
  cases hg : dlookup e "defaults" with
  | none => rfl
  | some v =>
    rw [hg] at hd
    cases v <;> simp_all [isDictOpt]

theorem collectContext_ok (cfg : Dict) (t : String) (cc : Dict)
    (args : List String) (nd : Bool) (fill : String → Option String)
    (pre : Dict) (hpre : preContext cfg t cc args nd = .ok pre) :
    collectContext cfg t cc args nd fill = promptPhase fill cc pre [] := by
  rw [collectContext, hpre]

theorem preContext_defaults (cfg : Dict) (t : String) (cc : Dict)
    (args : List String) (merged : Dict)
    (hm : Config.get_merged_defaults cfg t = .ok merged) :
    preContext cfg t cc args false
      = .ok (addDefaults (parseOverrides cc args) merged) := by
  rw [preContext, if_neg (by simp), hm]

/-! ### The claims -/

/-- Claim C1: for every configuration document and template name registered
in it, the resolution result's key set is exactly the union of the global
and template default keys; a key present in only one source maps to that
source's value, and a key present in both maps to the template's value. -/
theorem C1_merged_defaults_union (c : Dict) (t : String) (ts : List (String × Val))
    (hts : dlookup c "templates" = some (Val.dict ts))
    (hmem : dcontains ts t = true)
    (hnd : ((effTemplateDefaults c t).map Prod.fst).Nodup) :
    Config.get_merged_defaults c t
        = .ok (dupdate (effGlobalDefaults c) (effTemplateDefaults c t)) ∧
    (∀ k, dcontains (dupdate (effGlobalDefaults c) (effTemplateDefaults c t)) k
        = (dcontains (effGlobalDefaults c) k || dcontains (effTemplateDefaults c t) k)) ∧
    (∀ k v, dlookup (effTemplateDefaults c t) k = some v →
      dlookup (dupdate (effGlobalDefaults c) (effTemplateDefaults c t)) k = some v) ∧
    (∀ k, dlookup (effTemplateDefaults c t) k = none →
      dlookup (dupdate (effGlobalDefaults c) (effTemplateDefaults c t)) k
        = dlookup (effGlobalDefaults c) k) := by
  refine ⟨get_merged_defaults_ok c t ts hts hmem, ?_, ?_, ?_⟩
  · intro k
    rw [dcontains_dupdate _ _ _ hnd, Bool.or_comm]
  · intro k v h
    exact dupdate_lookup_some _ _ _ _ hnd h
  · intro k h
    exact dupdate_lookup_none _ _ _ h

/-- Witness for C1 at the spec's scenario: global `license=MIT`, template
defaults `author=Jane, license=Apache` resolve to
`license=Apache, author=Jane`. -/
theorem C1_merged_defaults_union_witness :
    Config.get_merged_defaults
        [("templates", Val.dict [("T", Val.dict [("defaults",
            Val.dict [("author", Val.str "Jane"), ("license", Val.str "Apache")])])]),
         ("global_defaults", Val.dict [("license", Val.str "MIT")])] "T"
      = .ok [("license", Val.str "Apache"), ("author", Val.str "Jane")] ∧
    dlookup [("license", Val.str "Apache"), ("author", Val.str "Jane")] "license"
      = some (Val.str "Apache") ∧
    dlookup [("license", Val.str "Apache"), ("author", Val.str "Jane")] "author"
      = some (Val.str "Jane") := by
  have h := C1_merged_defaults_union
      [("templates", Val.dict [("T", Val.dict [("defaults",
          Val.dict [("author", Val.str "Jane"), ("license", Val.str "Apache")])])]),
       ("global_defaults", Val.dict [("license", Val.str "MIT")])] "T"
      [("T", Val.dict [("defaults",
          Val.dict [("author", Val.str "Jane"), ("license", Val.str "Apache")])])]
      rfl rfl (by decide)
  exact ⟨h.1, h.2.2.1 "license" (Val.str "Apache") rfl,
    h.2.2.1 "author" (Val.str "Jane") rfl⟩

/-- Claim C2: resolving a template name that is not present in the templates
mapping fails with a KeyError and never returns a mapping. -/
theorem C2_unregistered_template_fails (c : Dict) (t : String)
    (h : Val.containsKey (dget c "templates" (Val.dict [])) t = false) :
    Config.get_merged_defaults c t
        = .error (.keyError ("Template " ++ t ++ " not found in config")) ∧
    ∀ m : Dict, Config.get_merged_defaults c t ≠ .ok m := by
  have h1 : Config.get_merged_defaults c t
      = .error (.keyError ("Template " ++ t ++ " not found in config")) := by
    rw [Config.get_merged_defaults, if_pos (by simp [h])]
  refine ⟨h1, fun m hm => ?_⟩
  rw [h1] at hm
  cases hm

/-- Witness for C2: a document whose templates mapping lacks `missing`,
even though global defaults exist. -/
theorem C2_unregistered_template_fails_witness :
    Config.get_merged_defaults
        [("templates", Val.dict []),
         ("global_defaults", Val.dict [("license", Val.str "MIT")])] "missing"
      = .error (.keyError "Template missing not found in config") :=
  (C2_unregistered_template_fails
      [("templates", Val.dict []),
       ("global_defaults", Val.dict [("license", Val.str "MIT")])] "missing" rfl).1

/-- Claim C5: an absent or non-mapping `global_defaults` (resp. template
`defaults`) section degrades to the empty mapping and resolution still
succeeds: the result is then exactly the other source, and the empty mapping
when both degrade. -/
theorem C5_malformed_sections_degrade (c : Dict) (t : String)
    (ts e : List (String × Val))
    (hts : dlookup c "templates" = some (Val.dict ts))
    (he : dlookup ts t = some (Val.dict e)) :
    (isDictOpt (dlookup c "global_defaults") = false →
      ((effTemplateDefaults c t).map Prod.fst).Nodup →
      Config.get_merged_defaults c t = .ok (effTemplateDefaults c t)) ∧
    (isDictOpt (dlookup e "defaults") = false →
      Config.get_merged_defaults c t = .ok (effGlobalDefaults c)) ∧
    (isDictOpt (dlookup c "global_defaults") = false →
      isDictOpt (dlookup e "defaults") = false →
      Config.get_merged_defaults c t = .ok []) := by
  have hmem : dcontains ts t = true := by simp [dcontains, he]
  have hok := get_merged_defaults_ok c t ts hts hmem
  refine ⟨?_, ?_, ?_⟩
  · intro hg hnd
    rw [hok, effGlobalDefaults_empty c hg, dupdate_nil_left _ hnd]
  · intro hd
    rw [hok, effTemplateDefaults_empty c t ts e hts he hd]
    rfl
  · intro hg hd
    rw [hok, effGlobalDefaults_empty c hg, effTemplateDefaults_empty c t ts e hts he hd]
    rfl

/-- Witness for C5: a non-mapping `global_defaults` yields exactly the
template defaults; a non-mapping template `defaults` yields exactly the
global defaults; both absent yield the empty mapping. -/
theorem C5_malformed_sections_degrade_witness :
    Config.get_merged_defaults
        [("templates", Val.dict [("T", Val.dict [("defaults",
            Val.dict [("a", Val.str "1")])])]),
         ("global_defaults", Val.str "oops")] "T"
      = .ok [("a", Val.str "1")] ∧
    Config.get_merged_defaults
        [("templates", Val.dict [("T", Val.dict [("defaults", Val.str "bad")])]),
         ("global_defaults", Val.dict [("g", Val.str "2")])] "T"
      = .ok [("g", Val.str "2")] ∧
    Config.get_merged_defaults [("templates", Val.dict [("T", Val.dict [])])] "T"
      = .ok [] :=
  ⟨(C5_malformed_sections_degrade
      [("templates", Val.dict [("T", Val.dict [("defaults",
          Val.dict [("a", Val.str "1")])])]),
       ("global_defaults", Val.str "oops")] "T"
      [("T", Val.dict [("defaults", Val.dict [("a", Val.str "1")])])]
      [("defaults", Val.dict [("a", Val.str "1")])] rfl rfl).1 rfl (by decide),
   (C5_malformed_sections_degrade
      [("templates", Val.dict [("T", Val.dict [("defaults", Val.str "bad")])]),
       ("global_defaults", Val.dict [("g", Val.str "2")])] "T"
      [("T", Val.dict [("defaults", Val.str "bad")])]
      [("defaults", Val.str "bad")] rfl rfl).2.1 rfl,
   (C5_malformed_sections_degrade
      [("templates", Val.dict [("T", Val.dict [])])] "T"
      [("T", Val.dict [])] [] rfl rfl).2.2 rfl rfl⟩

/-- Claim C8: the resolution engine is a pure function of its two inputs —
its result depends only on the `templates` and `global_defaults` sections of
the document — and calling it twice with unchanged inputs yields identical
output.  (Non-mutation of the document holds in this embedding because the
source copies the global mapping before updating it.) -/
theorem C8_resolve_pure (c c' : Dict) (t : String)
    (h1 : dlookup c "templates" = dlookup c' "templates")
    (h2 : dlookup c "global_defaults" = dlookup c' "global_defaults") :
    Config.get_merged_defaults c t = Config.get_merged_defaults c' t ∧
    Config.get_merged_defaults c t = Config.get_merged_defaults c t := by
  refine ⟨?_, rfl⟩
  have hg : effGlobalDefaults c = effGlobalDefaults c' := by
    rw [effGlobalDefaults, effGlobalDefaults, dget, dget, h2]
  have ht : effTemplateDefaults c t = effTemplateDefaults c' t := by
    rw [effTemplateDefaults, effTemplateDefaults]
    simp only [dget, h1]
  rw [Config.get_merged_defaults, Config.get_merged_defaults, dget, dget, h1, hg, ht]

/-- Witness for C8: adding an unrelated `user` section does not change the
resolution result. -/
theorem C8_resolve_pure_witness :
    Config.get_merged_defaults
        [("templates", Val.dict [("T", Val.dict [("defaults",
            Val.dict [("a", Val.str "1")])])]),
         ("global_defaults", Val.dict [("g", Val.str "2")])] "T"
      = Config.get_merged_defaults
        [("templates", Val.dict [("T", Val.dict [("defaults",
            Val.dict [("a", Val.str "1")])])]),
         ("global_defaults", Val.dict [("g", Val.str "2")]),
         ("user", Val.dict [("name", Val.str "x")])] "T" :=
  (C8_resolve_pure _ _ "T" rfl rfl).1

/-- Claim C3: in the create pipeline an explicit command-line override is
never overwritten by a resolved default and never prompted for, and a key
filled from a resolved default is likewise never prompted for. -/
theorem C3_override_precedence (cfg : Dict) (t : String) (cc : Dict)
    (args : List String) (fill : String → Option String)
    (merged ctx : Dict) (prl : List String) (k : String) (v : Val)
    (hm : Config.get_merged_defaults cfg t = .ok merged)
    (hrun : collectContext cfg t cc args false fill = .ok (ctx, prl)) :
    (dlookup (parseOverrides cc args) k = some v →
      dlookup ctx k = some v ∧ k ∉ prl) ∧
    (dlookup (parseOverrides cc args) k = none → dlookup merged k = some v →
      dlookup ctx k = some v ∧ k ∉ prl) := by
  have hpre := preContext_defaults cfg t cc args merged hm
  rw [collectContext_ok cfg t cc args false fill _ hpre] at hrun
  constructor
  · intro hov
    have h1 := addDefaults_some (parseOverrides cc args) merged k v hov
    have h2 := promptPhase_some fill cc k v _ _ _ _ h1 hrun
    exact ⟨h2.1, fun hmem => by simpa using h2.2.mp hmem⟩
  · intro hov hmg
    have h1 : dlookup (addDefaults (parseOverrides cc args) merged) k = some v := by
      rw [addDefaults_none _ _ _ hov]; exact hmg
    have h2 := promptPhase_some fill cc k v _ _ _ _ h1 hrun
    exact ⟨h2.1, fun hmem => by simpa using h2.2.mp hmem⟩

/-- Witness for C3 at the spec's scenario: the override `--license GPL`
beats the resolved default `license=MIT` and the key is never prompted. -/
theorem C3_override_precedence_witness :
    dlookup [("license", Val.str "GPL")] "license" = some (Val.str "GPL") ∧
    "license" ∉ ([] : List String) :=
  (C3_override_precedence
      [("templates", Val.dict [("T", Val.dict [("defaults", Val.dict [])])]),
       ("global_defaults", Val.dict [("license", Val.str "MIT")])]
      "T" [("license", Val.str "")] ["--license", "GPL"] (fun _ => none)
      [("license", Val.str "MIT")] [("license", Val.str "GPL")] []
      "license" (Val.str "GPL") rfl rfl).1 rfl

/-- Claim C4: with `--no-defaults` the resolved defaults are never
consulted — the pipeline's result does not depend on the configuration
document or template name at all — and in the spec's scenario the schema's
own default `John Doe` wins over the global default `Global`. -/
theorem C4_no_defaults_bypass :
    (∀ (cfg cfg' : Dict) (t t' : String) (cc : Dict) (args : List String)
        (fill : String → Option String),
      collectContext cfg t cc args true fill
        = collectContext cfg' t' cc args true fill) ∧
    collectContext
        [("templates", Val.dict [("T", Val.dict [])]),
         ("global_defaults", Val.dict [("author", Val.str "Global")])]
        "T" [("author", Val.str "John Doe")] [] true (fun _ => none)
      = .ok ([("author", Val.str "John Doe")], ["author"]) :=
  ⟨fun _ _ _ _ _ _ _ => rfl, rfl⟩

/-- Claim C6 counterexample: the schema declares `_internal` and a global
default supplies it; the final context then contains `_internal`, refuting
"never appears in the final context ... regardless of whether a resolved
default or override exists for it". -/
theorem C6_underscore_cex :
    strStarts "_internal" "_" = true ∧
    collectContext
        [("templates", Val.dict [("T", Val.dict [])]),
         ("global_defaults", Val.dict [("_internal", Val.str "v")])]
        "T" [("_internal", Val.str "x")] [] false (fun _ => none)
      = .ok ([("_internal", Val.str "v")], []) ∧
    dlookup [("_internal", Val.str "v")] "_internal" = some (Val.str "v") :=
  ⟨rfl, rfl, rfl⟩

/-- Claim C6 (amended): a schema key beginning with the internal marker is
never prompted for and the prompting phase never adds or changes it — its
final-context binding is exactly its binding in the pre-prompt context of
overrides and resolved defaults. -/
theorem C6_underscore_amended (cfg : Dict) (t : String) (cc : Dict)
    (args : List String) (nd : Bool) (fill : String → Option String)
    (pre ctx : Dict) (prl : List String) (k : String)
    (hk : strStarts k "_" = true)
    (hpre : preContext cfg t cc args nd = .ok pre)
    (hrun : collectContext cfg t cc args nd fill = .ok (ctx, prl)) :
    k ∉ prl ∧ dlookup ctx k = dlookup pre k := by
  rw [collectContext_ok cfg t cc args nd fill _ hpre] at hrun
  have h := promptPhase_underscore fill cc k hk pre [] ctx prl hrun
  exact ⟨fun hmem => by simpa using h.2.mp hmem, h.1⟩

/-- Witness for the amended C6: `_internal` is supplied by a global default
and survives untouched while `name` is prompted. -/
theorem C6_underscore_amended_witness :
    "_internal" ∉ ["name"] ∧
    dlookup [("_internal", Val.str "v"), ("name", Val.str "pkg")] "_internal"
      = dlookup [("_internal", Val.str "v")] "_internal" :=
  C6_underscore_amended
    [("templates", Val.dict [("T", Val.dict [])]),
     ("global_defaults", Val.dict [("_internal", Val.str "v")])]
    "T" [("_internal", Val.str "x"), ("name", Val.str "pkg")] [] false
    (fun _ => none) [("_internal", Val.str "v")]
    [("_internal", Val.str "v"), ("name", Val.str "pkg")] ["name"] "_internal"
    rfl rfl rfl

/-- Claim C7 counterexample: `license` declares the choices MIT/Apache but
the override `--license GPL` puts `GPL` — not one of the choices — into the
final context, refuting the claim for keys settled before prompting. -/
theorem C7_choices_cex :
    collectContext
        [("templates", Val.dict [("T", Val.dict [])]), ("global_defaults", Val.dict [])]
        "T" [("license", Val.list [Val.str "MIT", Val.str "Apache"])]
        ["--license", "GPL"] false (fun _ => none)
      = .ok ([("license", Val.str "GPL")], []) ∧
    ¬ "GPL" ∈ List.map pyStr [Val.str "MIT", Val.str "Apache"] :=
  ⟨rfl, by decide⟩

/-- Claim C7 (amended): a choices key that is not already settled by an
override or resolved default ends up bound to one of the rendered choices,
with the empty interactive answer selecting the first choice. -/
theorem C7_choices_amended (cfg : Dict) (t : String) (cc : Dict)
    (args : List String) (nd : Bool) (fill : String → Option String)
    (pre ctx : Dict) (prl : List String) (k : String) (l : List Val)
    (hnd : (cc.map Prod.fst).Nodup)
    (hdecl : dlookup cc k = some (Val.list l))
    (hus : strStarts k "_" = false)
    (hpre : preContext cfg t cc args nd = .ok pre)
    (hnotpre : dcontains pre k = false)
    (hrun : collectContext cfg t cc args nd fill = .ok (ctx, prl)) :
    ∃ s, dlookup ctx k = some (Val.str s) ∧ s ∈ l.map pyStr ∧
      (fill k = none → (l.map pyStr).head? = some s) := by
  rw [collectContext_ok cfg t cc args nd fill _ hpre] at hrun
  exact promptPhase_choice fill cc k l pre [] ctx prl hnd hdecl hnotpre hus hrun

/-- Witness for the amended C7: with no override and no input, `license`
resolves to the first choice MIT. -/
theorem C7_choices_amended_witness :
    dlookup [("license", Val.str "MIT")] "license" = some (Val.str "MIT") ∧
    "MIT" ∈ List.map pyStr [Val.str "MIT", Val.str "Apache"] := by
  obtain ⟨s, h1, h2, h3⟩ := C7_choices_amended
    [("templates", Val.dict [("T", Val.dict [])]), ("global_defaults", Val.dict [])]
    "T" [("license", Val.list [Val.str "MIT", Val.str "Apache"])] [] false
    (fun _ => none) [] [("license", Val.str "MIT")] ["license"] "license"
    [Val.str "MIT", Val.str "Apache"] (by simp) rfl rfl rfl rfl rfl
  have hs : some "MIT" = some s := h3 rfl
  obtain rfl : "MIT" = s := by injection hs
  exact ⟨h1, h2⟩

/-- Claim C9: declining the confirmation of `remove-template`,
`remove-default` or `remove-global-default` leaves the configuration
document unchanged, persists nothing, and exits with status 0. -/
theorem C9_declined_removals (cfg : Dict) (ts e dfts g : List (String × Val))
    (name key gkey : String)
    (hts : dlookup cfg "templates" = some (Val.dict ts))
    (hname : dcontains ts name = true)
    (he : dlookup ts name = some (Val.dict e))
    (hd : dlookup e "defaults" = some (Val.dict dfts))
    (hdk : dcontains dfts key = true)
    (hg : dlookup cfg "global_defaults" = some (Val.dict g))
    (hgk : dcontains g gkey = true) :
    configRemoveTemplate cfg name false = ⟨cfg, false, 0⟩ ∧
    configRemoveDefault cfg name key false = ⟨cfg, false, 0⟩ ∧
    configRemoveGlobalDefault cfg gkey false = ⟨cfg, false, 0⟩ := by
  refine ⟨?_, ?_, ?_⟩
  · rw [configRemoveTemplate]
    simp only [dget, hts, Option.getD_some]
    rw [if_neg (by simp [hname]), if_pos (by simp)]
  · rw [configRemoveDefault]
    simp only [dget, hts, he, hd, Option.getD_some]
    rw [if_neg (by simp [hname]), if_neg (by simp [hdk]), if_neg (by simp)]
  · rw [configRemoveGlobalDefault]
    simp only [dget, hg, Option.getD_some]
    rw [if_neg (by simp [hgk]), if_neg (by simp)]

/-- Witness for C9 on a concrete document: all three declined removals are
no-ops with exit status 0. -/
theorem C9_declined_removals_witness :
    configRemoveTemplate
        [("templates", Val.dict [("T", Val.dict [("defaults",
            Val.dict [("author", Val.str "Jane")])])]),
         ("global_defaults", Val.dict [("license", Val.str "MIT")])] "T" false
      = ⟨[("templates", Val.dict [("T", Val.dict [("defaults",
            Val.dict [("author", Val.str "Jane")])])]),
         ("global_defaults", Val.dict [("license", Val.str "MIT")])], false, 0⟩ ∧
    configRemoveDefault
        [("templates", Val.dict [("T", Val.dict [("defaults",
            Val.dict [("author", Val.str "Jane")])])]),
         ("global_defaults", Val.dict [("license", Val.str "MIT")])] "T" "author" false
      = ⟨[("templates", Val.dict [("T", Val.dict [("defaults",
            Val.dict [("author", Val.str "Jane")])])]),
         ("global_defaults", Val.dict [("license", Val.str "MIT")])], false, 0⟩ ∧
    configRemoveGlobalDefault
        [("templates", Val.dict [("T", Val.dict [("defaults",
            Val.dict [("author", Val.str "Jane")])])]),
         ("global_defaults", Val.dict [("license", Val.str "MIT")])] "license" false
      = ⟨[("templates", Val.dict [("T", Val.dict [("defaults",
            Val.dict [("author", Val.str "Jane")])])]),
         ("global_defaults", Val.dict [("license", Val.str "MIT")])], false, 0⟩ :=
  C9_declined_removals
    [("templates", Val.dict [("T", Val.dict [("defaults",
        Val.dict [("author", Val.str "Jane")])])]),
     ("global_defaults", Val.dict [("license", Val.str "MIT")])]
    [("T", Val.dict [("defaults", Val.dict [("author", Val.str "Jane")])])]
    [("defaults", Val.dict [("author", Val.str "Jane")])]
    [("author", Val.str "Jane")] [("license", Val.str "MIT")]
    "T" "author" "license" rfl rfl rfl rfl rfl rfl rfl

/-- Claim C10: a trailing `--key value` pair is accepted as an override only
when the key is declared in the schema and the following argument is not
itself a flag — every accepted binding comes from such an adjacent pair; an
undeclared key is silently ignored (the parse is total, so it never causes
an error) and, provided no resolved default carries it either, it never
enters the final context. -/
theorem C10_override_acceptance (cc : Dict) (args : List String)
    (k : String) (v : Val) :
    (dlookup (parseOverrides cc args) k = some v →
      dcontains cc k = true ∧
      ∃ s, v = Val.str s ∧ strStarts s "--" = false ∧
        ∃ i, args[i]? = some (String.mk ('-' :: '-' :: k.data)) ∧
          args[i + 1]? = some s) ∧
    (dcontains cc k = false → dlookup (parseOverrides cc args) k = none) ∧
    (∀ (cfg : Dict) (t : String) (fill : String → Option String)
        (merged ctx : Dict) (prl : List String),
      dcontains cc k = false →
      Config.get_merged_defaults cfg t = .ok merged →
      dlookup merged k = none →
      collectContext cfg t cc args false fill = .ok (ctx, prl) →
      dlookup ctx k = none) := by
  refine ⟨fun h => parseOverrides_sound cc args k v h,
    fun h => parseOverrides_undeclared cc args k h, ?_⟩
  intro cfg t fill merged ctx prl hk hm hmg hrun
  have hov := parseOverrides_undeclared cc args k hk
  have hpre := preContext_defaults cfg t cc args merged hm
  rw [collectContext_ok cfg t cc args false fill _ hpre] at hrun
  have h1 : dlookup (addDefaults (parseOverrides cc args) merged) k = none := by
    rw [addDefaults_none _ _ _ hov]; exact hmg
  have h2 := promptPhase_not_declared fill cc k hk _ _ _ _ hrun
  rw [h2.1, h1]

/-- Witness for C10: the accepted override `--license GPL` is declared in
the schema and comes from an adjacent argument pair. -/
theorem C10_override_acceptance_witness :
    dcontains [("license", Val.str "")] "license" = true ∧
    ∃ s, Val.str "GPL" = Val.str s ∧ strStarts s "--" = false ∧
      ∃ i, (["--license", "GPL"] : List String)[i]?
          = some (String.mk ('-' :: '-' :: "license".data)) ∧
        (["--license", "GPL"] : List String)[i + 1]? = some s :=
  (C10_override_acceptance [("license", Val.str "")] ["--license", "GPL"]
      "license" (Val.str "GPL")).1 rfl

end Wanpc
